import Mathlib

/-!
Verification of the document interchange subsystem of the `rui` repository:
PDF content extraction (`extractPdfWithPages` / `extractImagesFromPage`),
the long-form markdown-to-PDF renderer (`exportFinalReportToPdf`) and the
pairwise-comparison renderer (`exportPairwiseComparisonsToPdf`).

Modelling conventions:
* JavaScript strings are modelled as `List Char` (`Str`).
* All page coordinates and lengths are modelled in exact centi-points
  (1 pt = 100 units), so every constant appearing in the source
  (A4 height 841.89 pt, `fontSize * 1.4`, `fontSize * 1.5`, margins, ...)
  is an exact integer and all layout arithmetic is exact.
* External collaborators (pdf.js object tables, the jsPDF text measurer
  `splitTextToSize`, the canvas PNG encoder) are parameters of the
  embedded functions: `split : Str → Int → List Str` stands for
  `pdf.splitTextToSize`, `decode : ImgData → Str` for
  `imageDataToDataUrl` (returning the empty string when no 2d context is
  available), and the per-page object tables are functions
  `Str → Except Unit (Option ImgData)` whose `.error` value models a
  thrown exception.
* Fallible JavaScript operations are modelled with `Option` / `Except`.
-/

/-- JavaScript strings, modelled as lists of characters. -/
abbrev Str := List Char

/-- Whitespace as matched by the JavaScript `\s` class and `String.trim`
(restricted to the ASCII range; the inputs of interest are ASCII). -/
def isWs (c : Char) : Bool :=
  c == ' ' || c == '\t' || c == '\n' || c == '\r' || c == '\x0B' || c == '\x0C'

/-- Strip leading whitespace (left part of JavaScript `String.trim`). -/
def trimL (s : Str) : Str := s.dropWhile isWs

/-- Strip trailing whitespace (right part of JavaScript `String.trim`). -/
def trimR (s : Str) : Str := (s.reverse.dropWhile isWs).reverse

/-- JavaScript `String.trim`: strip leading and trailing whitespace. -/
def trim (s : Str) : Str := trimL (trimR s)

/-- JavaScript `Array.join(" ")`. -/
def joinSpace : List Str → Str
  | [] => []
  | [s] => s
  | s :: t :: ts => s ++ ' ' :: joinSpace (t :: ts)

/-- The two-newline separator `"\n\n"` used between page texts. -/
def nl2 : Str := [ '\n', '\n' ]

/-- Join a list of strings with a blank line (`"\n\n"`) between
consecutive elements; this is the specification-side description of how
`fullText` combines the page texts. -/
def joinBlank : List Str → Str
  | [] => []
  | [s] => s
  | s :: t :: ts => s ++ nl2 ++ joinBlank (t :: ts)

/-- Decimal rendering of a natural number (JavaScript template-string
interpolation of a number). -/
def natStr (n : Nat) : Str := (Nat.repr n).data

/-- JavaScript `String.split(sep)` for a one-character separator. -/
def splitOnSep (sep : Char) : Str → List Str
  | [] => [[]]
  | c :: rest =>
    match splitOnSep sep rest with
    | [] => [[]]
    | s :: ss => if c == sep then [] :: s :: ss else (c :: s) :: ss

/-- A concrete text-measurer used for witnesses and counterexamples: it
breaks a string at spaces, one word per line (the behaviour of
`splitTextToSize` when every word is wider than the available width),
dropping empty fragments. -/
def wordSplit (s : Str) (_width : Int) : List Str :=
  (splitOnSep ' ' s).filter (fun l => !l.isEmpty)

/- ======================================================================
   Content extraction (source: `extractPdfWithPages`,
   `extractImagesFromPage`, `imageDataToDataUrl`).
   ====================================================================== -/

/-- An extracted image: PNG data URL plus pixel dimensions. -/
structure ExtractedImage where
  dataUrl : Str
  width : Nat
  height : Nat
deriving DecidableEq, Repr

/-- An extracted page: 1-based page number, joined text, images. -/
structure ExtractedPage where
  pageNumber : Nat
  text : Str
  images : List ExtractedImage
deriving DecidableEq, Repr

/-- The result of extraction. -/
structure ExtractedPdfData where
  pages : List ExtractedPage
  fullText : Str
deriving DecidableEq, Repr

/-- Resolved image data as delivered by the pdf.js object tables:
`hasData` models the truthiness of `imgData.data`; `width`/`height` are
the pixel dimensions (`0` models a missing/zero, hence falsy, field). -/
structure ImgData where
  hasData : Bool
  width : Nat
  height : Nat
deriving DecidableEq, Repr

/-- A pdf.js page, reduced to the data the extractor reads: the text
items (`none` models an item without a string `str` field), the operator
list (`none` models a rejected `getOperatorList()` promise; each operator
is a function code paired with its first argument, the image resource
name), and the page-local and shared object tables (an `Except.error`
result models a thrown exception in `objs.get`). -/
structure PdfPage where
  items : List (Option Str)
  ops : Option (List (Nat × Option Str))
  objs : Str → Except Unit (Option ImgData)
  commonObjs : Str → Except Unit (Option ImgData)

/-- Operator code `OPS_PAINT_IMAGE_XOBJECT`. -/
def OPS_PAINT_IMAGE_XOBJECT : Nat := 85

/-- Operator code `OPS_PAINT_IMAGE_XOBJECT_REPEAT`. -/
def OPS_PAINT_IMAGE_XOBJECT_REPEAT : Nat := 86

/-- Operator code `OPS_PAINT_JPEG_XOBJECT`. -/
def OPS_PAINT_JPEG_XOBJECT : Nat := 82

/-- Resolution of an image resource name: try the page-local object
table first, fall back to the shared table when the first lookup
returns a null/undefined object. A thrown exception propagates (it is
caught by the per-image `try/catch` of the scan loop). -/
def resolveImg (page : PdfPage) (name : Str) : Except Unit (Option ImgData) := do
  let a ← page.objs name
  match a with
  | some img => pure (some img)
  | none => page.commonObjs name

/-- The body of the per-image `try` block of `extractImagesFromPage`:
resolve the name, require truthy `data`/`width`/`height`, reject images
smaller than 50 pixels in either dimension, encode via the decoder, and
require a non-empty data URL. Every failure path (including a thrown
exception, i.e. `Except.error`) yields `none`, which the scan loop
treats as `continue`. -/
def tryExtractImage (decode : ImgData → Str) (page : PdfPage) (name : Str) :
    Option ExtractedImage :=
  match resolveImg page name with
  | .error _ => none
  | .ok none => none
  | .ok (some img) =>
    if img.hasData = true ∧ img.width ≠ 0 ∧ img.height ≠ 0 then
      if img.width < 50 ∨ img.height < 50 then none
      else
        if (decode img).isEmpty then none
        else some ⟨decode img, img.width, img.height⟩
    else none

/-- The operator-scan loop of `extractImagesFromPage`, instrumented to
keep the resource name next to each extracted image. `seen` is the
`seenImages` set (a list of names already encountered on this page).
A missing or empty first argument is falsy and skipped; a name already
in `seen` is skipped; otherwise the name is added to `seen` and the
image is extracted unless some per-image step fails. -/
def scanImages (decode : ImgData → Str) (page : PdfPage) :
    List (Nat × Option Str) → List Str → List (Str × ExtractedImage)
  | [], _ => []
  | (fn, arg) :: rest, seen =>
    if fn = OPS_PAINT_IMAGE_XOBJECT ∨ fn = OPS_PAINT_IMAGE_XOBJECT_REPEAT ∨
        fn = OPS_PAINT_JPEG_XOBJECT then
      match arg with
      | none => scanImages decode page rest seen
      | some name =>
        if name = [] ∨ name ∈ seen then scanImages decode page rest seen
        else
          match tryExtractImage decode page name with
          | none => scanImages decode page rest (name :: seen)
          | some img => (name, img) :: scanImages decode page rest (name :: seen)
    else scanImages decode page rest seen

/-- `extractImagesFromPage`, instrumented with resource names: a failed
`getOperatorList()` (modelled by `ops = none`) is swallowed and yields
the empty list; otherwise the operator list is scanned with an initially
empty `seenImages` set. -/
def extractImagesFromPageNamed (decode : ImgData → Str) (page : PdfPage) :
    List (Str × ExtractedImage) :=
  match page.ops with
  | none => []
  | some ops => scanImages decode page ops []

/-- `extractImagesFromPage`: the images pushed by the scan, in scan
order (the resource names are bookkeeping only and are dropped). -/
def extractImagesFromPage (decode : ImgData → Str) (page : PdfPage) :
    List ExtractedImage :=
  (extractImagesFromPageNamed decode page).map Prod.snd

/-- Per-page text: map items to their `str` (or `""`), drop falsy
(empty) strings, join with single spaces. -/
def pageText (page : PdfPage) : Str :=
  joinSpace ((page.items.map (fun o => o.getD [])).filter (fun s => !s.isEmpty))

/-- One entry of the `pages` array built by the extraction loop. -/
def extractPage (decode : ImgData → Str) (n : Nat) (page : PdfPage) : ExtractedPage :=
  ⟨n, pageText page, extractImagesFromPage decode page⟩

/-- The extraction loop over the document pages, with `n` the 1-based
number of the first remaining page (`pageNum` in the source). -/
def extractPages (decode : ImgData → Str) : Nat → List PdfPage → List ExtractedPage
  | _, [] => []
  | n, p :: ps => extractPage decode n p :: extractPages decode (n + 1) ps

/-- The accumulated `fullText` before trimming: the loop appends
`pageText + "\n\n"` for each page in order. -/
def rawFullText : List Str → Str
  | [] => []
  | t :: ts => t ++ nl2 ++ rawFullText ts

/-- Body of `extractPdfWithPages` once the document has been opened. -/
def extractBody (decode : ImgData → Str) (ps : List PdfPage) : ExtractedPdfData :=
  ⟨extractPages decode 1 ps, trim (rawFullText (ps.map pageText))⟩

/-- `extractPdfWithPages`: `none` models an input whose top-level
document cannot be opened (`getDocument(...).promise` rejects), the sole
fatal condition; an opened document is processed page by page. -/
def extractPdfWithPages (decode : ImgData → Str) :
    Option (List PdfPage) → Except Unit ExtractedPdfData
  | none => .error ()
  | some ps => .ok (extractBody decode ps)

/- ======================================================================
   Inline-markup cleanup (`cleanText` in `exportFinalReportToPdf`).
   Each pass embeds one global regex replacement; on a failed match
   attempt the scanner advances one character, as the JavaScript regex
   engine does.  The `Nat` argument is structural-recursion fuel; every
   step consumes at least one input character, so fuel equal to the
   input length is never exhausted.
   ====================================================================== -/

/-- Pass for `/\[([^\]]+)\]\(([^)]+)\)/g → "$1"`: a markdown link
`[label](url)` becomes `label`. -/
def stripLinks : Nat → Str → Str
  | 0, s => s
  | _ + 1, [] => []
  | f + 1, c :: rest =>
    if c == '[' then
      let label := rest.takeWhile (fun d => d != ']')
      match rest.drop label.length with
      | ']' :: '(' :: r2 =>
        let url := r2.takeWhile (fun d => d != ')')
        match r2.drop url.length with
        | ')' :: after =>
          if label.isEmpty || url.isEmpty then c :: stripLinks f rest
          else label ++ stripLinks f after
        | _ => c :: stripLinks f rest
      | _ => c :: stripLinks f rest
    else c :: stripLinks f rest

/-- Pass for `/d([^d]+)d/g → "$1"` with a one-character delimiter `d`
(inline code with a backtick, italic with `*`, italic-alt with `_`). -/
def stripDelim1 (d : Char) : Nat → Str → Str
  | 0, s => s
  | _ + 1, [] => []
  | f + 1, c :: rest =>
    if c == d then
      let body := rest.takeWhile (fun e => e != d)
      if body.isEmpty then c :: stripDelim1 d f rest
      else
        match rest.drop body.length with
        | e :: after =>
          if e == d then body ++ stripDelim1 d f after
          else c :: stripDelim1 d f rest
        | [] => c :: stripDelim1 d f rest
    else c :: stripDelim1 d f rest

/-- Pass for `/dd([^d]+)dd/g → "$1"` with a doubled delimiter
(bold with `**`, bold-alt with `__`). -/
def stripDelim2 (d : Char) : Nat → Str → Str
  | 0, s => s
  | _ + 1, [] => []
  | f + 1, c :: rest =>
    if c == d then
      match rest with
      | c2 :: rest2 =>
        if c2 == d then
          let body := rest2.takeWhile (fun e => e != d)
          if body.isEmpty then c :: stripDelim2 d f rest
          else
            match rest2.drop body.length with
            | e1 :: e2 :: after =>
              if e1 == d && e2 == d then body ++ stripDelim2 d f after
              else c :: stripDelim2 d f rest
            | _ => c :: stripDelim2 d f rest
        else c :: stripDelim2 d f rest
      | [] => c :: stripDelim2 d f rest
    else c :: stripDelim2 d f rest

/-- Pass for `/\*\*\*([^*]+)\*\*\*/g → "$1"` (bold+italic). -/
def stripDelim3 (d : Char) : Nat → Str → Str
  | 0, s => s
  | _ + 1, [] => []
  | f + 1, c :: rest =>
    if c == d then
      match rest with
      | c2 :: c3 :: rest3 =>
        if c2 == d && c3 == d then
          let body := rest3.takeWhile (fun e => e != d)
          if body.isEmpty then c :: stripDelim3 d f rest
          else
            match rest3.drop body.length with
            | e1 :: e2 :: e3 :: after =>
              if e1 == d && e2 == d && e3 == d then body ++ stripDelim3 d f after
              else c :: stripDelim3 d f rest
            | _ => c :: stripDelim3 d f rest
        else c :: stripDelim3 d f rest
      | _ => c :: stripDelim3 d f rest
    else c :: stripDelim3 d f rest

/-- `cleanText`: strip links, inline code, `***`, `**`, `*`, `__`, `_`
markup, in the order of the source's `.replace` chain. -/
def cleanText (s : Str) : Str :=
  let s1 := stripLinks s.length s
  let s2 := stripDelim1 '`' s1.length s1
  let s3 := stripDelim3 '*' s2.length s2
  let s4 := stripDelim2 '*' s3.length s3
  let s5 := stripDelim1 '*' s4.length s4
  let s6 := stripDelim2 '_' s5.length s5
  stripDelim1 '_' s6.length s6

/- ======================================================================
   Output filename slug (`safeFileName` in `exportFinalReportToPdf`).
   ====================================================================== -/

/-- The character class kept by `replace(/[^a-zA-Z0-9\s-]/g, "")`. -/
def slugKeep (c : Char) : Bool :=
  c.isAlpha || c.isDigit || isWs c || c == '-'

/-- Global replacement `/\s+/g → "-"`: every maximal whitespace run
becomes one hyphen.  The flag records whether the previous character was
part of a whitespace run. -/
def collapseWsGo : Bool → Str → Str
  | _, [] => []
  | prevWs, c :: rest =>
    if isWs c then
      if prevWs then collapseWsGo true rest else '-' :: collapseWsGo true rest
    else c :: collapseWsGo false rest

/-- Replace every whitespace run with a single hyphen. -/
def collapseWs (s : Str) : Str := collapseWsGo false s

/-- The fixed suffix appended to the computed slug. -/
def slugSuffix : Str := ("-critical-analysis.pdf").data

/-- `safeFileName`: with a title, truncate to 50 characters, strip
everything outside `[a-zA-Z0-9\s-]`, trim, collapse whitespace runs to
single hyphens, and append the fixed suffix; without a title, the fixed
default name. -/
def safeFileName : Option Str → Str
  | some t => collapseWs (trim ((t.take 50).filter slugKeep)) ++ slugSuffix
  | none => ("critical-analysis.pdf").data

/- ======================================================================
   Shared layout constants and placements.  jsPDF A4 portrait in points:
   595.28 x 841.89; both renderers use margin 40 and content width
   pageWidth - 2*margin.  All values in centi-points.
   ====================================================================== -/

/-- A4 page width (595.28 pt). -/
def pageW : Int := 59528

/-- A4 page height (841.89 pt). -/
def pageH : Int := 84189

/-- Page margin (40 pt). -/
def pdfMargin : Int := 4000

/-- Header reserve of the long-form renderer (30 pt). -/
def headerH : Int := 3000

/-- Content width `pageWidth - margin * 2`. -/
def contentW : Int := pageW - 2 * pdfMargin

/-- One placed text line: its (rendered) text, the 1-based output page
it was placed on, the baseline `y` at placement time, and its line
height `h` (`fontSize` times the renderer's line-height multiplier), so
that its vertical extent ends at `y + h`. -/
structure Placement where
  txt : Str
  page : Nat
  y : Int
  h : Int
deriving DecidableEq, Repr

/-- Footer text `Page i of n`. -/
def pageOfStr (i n : Nat) : Str :=
  ("Page ").data ++ natStr i ++ (" of ").data ++ natStr n

namespace FinalReport

/-- Layout state of `exportFinalReportToPdf`: the writing cursor `y`,
the current page count (`pdf.addPage()` both appends and switches to the
new page, so the current page is always page `pages`), the code-fence
state, the code-block line buffer, and the trace of placed text. -/
structure FState where
  y : Int
  pages : Nat
  inCode : Bool
  buf : List Str
  placed : List Placement
deriving DecidableEq, Repr

/-- `checkPageBreak`: start a new page (resetting the cursor below the
header reserve) whenever placing `req` more height would cross
`pageHeight - margin`. -/
def checkPageBreak (req : Int) (st : FState) : FState :=
  if pageH - pdfMargin < st.y + req then
    { st with pages := st.pages + 1, y := pdfMargin + headerH }
  else st

/-- Record one `pdf.text` call on the current page at the current `y`. -/
def place (st : FState) (t : Str) (h : Int) : FState :=
  { st with placed := st.placed ++ [⟨t, st.pages, st.y, h⟩] }

/-- The per-line loop of `addText`: page-break check, place, advance by
`fontSize * 1.5` (passed in as `h`). -/
def placeLines (h : Int) : FState → List Str → FState
  | st, [] => st
  | st, l :: ls =>
    let st1 := checkPageBreak h st
    let st2 := place st1 l h
    placeLines h { st2 with y := st2.y + h } ls

/-- `addText` of the long-form renderer: skip falsy text, clean inline
markup, wrap to `contentWidth - indent`, and lay the lines out with a
per-line page-break check and a `fontSize * 1.5` line height.  The
`color`/`bold` arguments do not influence layout but are kept to mirror
the source signature. -/
def addText (split : Str → Int → List Str) (st : FState) (t : Option Str)
    (size : Int) (_color : Str) (_bold : Bool) (indent : Int) : FState :=
  match t with
  | none => st
  | some s =>
    if s.isEmpty then st
    else placeLines (size * 150) st (split (cleanText s) (contentW - indent))

/-- Truncation applied to each rendered code-block line: lines longer
than 90 characters keep their first 87 characters plus `"..."`. -/
def truncCode (l : Str) : Str :=
  if 90 < l.length then l.take 87 ++ ("...").data else l

/-- The code-line loop inside the code-block flush: place each
(truncated) line in 9 pt monospace and advance 12 pt; there is no
per-line page-break check here. -/
def placeCodeLines : FState → List Str → FState
  | st, [] => st
  | st, l :: ls =>
    let st1 := place st (truncCode l) 1200
    placeCodeLines { st1 with y := st1.y + 1200 } ls

/-- Flushing a closed code block: when the buffer is non-empty, one
page-break check for the whole block, the background rectangle, an 8 pt
gap, the buffered lines, then a 12 pt gap; in all cases the buffer is
cleared and the fence state reset. -/
def emitCodeBlock (st : FState) : FState :=
  if st.buf.isEmpty then { st with buf := [], inCode := false }
  else
    let st1 := checkPageBreak ((st.buf.length : Int) * 1200 + 2400) st
    let st2 := placeCodeLines { st1 with y := st1.y + 800 } st.buf
    { st2 with y := st2.y + 1200, buf := [], inCode := false }

/-- The quote-line loop: per-line page-break check, placement and a
fixed 14 pt advance. -/
def placeQuoteLines : FState → List Str → FState
  | st, [] => st
  | st, l :: ls =>
    let st1 := checkPageBreak 1400 st
    let st2 := place st1 l 1400
    placeQuoteLines { st2 with y := st2.y + 1400 } ls

/-- Whether the first character of a string is whitespace (used for the
`\s+` part of the list-item patterns). -/
def headIsWs : Str → Bool
  | c :: _ => isWs c
  | [] => false

/-- Match `/^(\s*)[-*+]\s+(.*)$/`: leading whitespace, a bullet marker,
at least one whitespace, then the content; returns
`(indentLevel, content)` with `indentLevel = floor(ws.length / 2)`. -/
def ulParse (l : Str) : Option (Nat × Str) :=
  let ws := l.takeWhile isWs
  match l.dropWhile isWs with
  | m :: r =>
    if (m == '-' || m == '*' || m == '+') && headIsWs r then
      some (ws.length / 2, r.dropWhile isWs)
    else none
  | [] => none

/-- Match `/^(\s*)(\d+)\.\s+(.*)$/`: leading whitespace, digits, a dot,
at least one whitespace, then the content; returns
`(indentLevel, digits, content)`. -/
def olParse (l : Str) : Option (Nat × Str × Str) :=
  let ws := l.takeWhile isWs
  let r := l.dropWhile isWs
  let ds := r.takeWhile Char.isDigit
  if ds.isEmpty then none
  else
    match r.drop ds.length with
    | '.' :: r2 =>
      if headIsWs r2 then some (ws.length / 2, ds, r2.dropWhile isWs) else none
    | _ => none

/-- The triple-backtick fence; `line.startsWith("```")`. -/
def fenceStr : Str := ("```").data

/-- Text color constants of the long-form renderer. -/
def titleColor : Str := ("#18181b").data

/-- Heading color. -/
def headingColor : Str := ("#27272a").data

/-- Subheading color. -/
def subColor : Str := ("#3f3f46").data

/-- Body text color. -/
def textColor : Str := ("#52525b").data

/-- Muted color (headers/footers). -/
def mutedColor : Str := ("#71717a").data

/-- One iteration of the markdown render loop of
`exportFinalReportToPdf`, in the source's branch order: fence toggle,
code-block buffering, blank-line spacer, headings 1-4, horizontal rule,
blockquote, unordered list item, ordered list item, plain paragraph. -/
def processLine (split : Str → Int → List Str) (st : FState) (line : Str) : FState :=
  if fenceStr.isPrefixOf line then
    if st.inCode then emitCodeBlock st else { st with inCode := true }
  else if st.inCode then { st with buf := st.buf ++ [line] }
  else if (trim line).isEmpty then { st with y := st.y + 600 }
  else if (("# ").data).isPrefixOf line then
    let st1 := checkPageBreak 4000 st
    let st2 := addText split { st1 with y := st1.y + 1600 } (some (line.drop 2)) 20 titleColor true 0
    { st2 with y := st2.y + 400 + 1600 }
  else if (("## ").data).isPrefixOf line then
    let st1 := checkPageBreak 3000 st
    let st2 := addText split { st1 with y := st1.y + 1200 } (some (line.drop 3)) 15 headingColor true 0
    { st2 with y := st2.y + 400 }
  else if (("### ").data).isPrefixOf line then
    let st1 := checkPageBreak 2400 st
    let st2 := addText split { st1 with y := st1.y + 800 } (some (line.drop 4)) 12 subColor true 0
    { st2 with y := st2.y + 200 }
  else if (("#### ").data).isPrefixOf line then
    let st1 := checkPageBreak 2000 st
    addText split { st1 with y := st1.y + 600 } (some (line.drop 5)) 11 subColor true 0
  else if 3 ≤ line.length ∧ line.all (fun c => c == '-' || c == '*' || c == '_') = true then
    let st1 := checkPageBreak 2000 st
    { st1 with y := st1.y + 800 + 1200 }
  else if (("> ").data).isPrefixOf line then
    let st1 := checkPageBreak 2400 st
    let st2 := placeQuoteLines st1 (split (cleanText (line.drop 2)) (contentW - 2000))
    { st2 with y := st2.y + 600 }
  else
    match ulParse line with
    | some (lvl, content) =>
      let indent : Int := (lvl : Int) * 1600
      let st1 := checkPageBreak 1600 st
      addText split st1 (some content) 10 textColor false (indent + 1400)
    | none =>
      match olParse line with
      | some (lvl, num, content) =>
        let indent : Int := (lvl : Int) * 1600
        let st1 := checkPageBreak 1600 st
        let st2 := place st1 (num ++ (".").data) 1500
        addText split st2 (some content) 10 textColor false (indent + 1800)
      | none => addText split st (some line) 10 textColor false 0

/-- The initial layout state: one page, cursor below the header
reserve. -/
def initState : FState :=
  { y := pdfMargin + headerH, pages := 1, inCode := false, buf := [], placed := [] }

/-- The per-page header text: `Critical Analysis — <title>` when a
title was given, else `Critical Analysis`. -/
def headerTextOf : Option Str → Str
  | some t => ("Critical Analysis — ").data ++ t
  | none => ("Critical Analysis").data

/-- Header truncation: headers longer than 80 characters keep their
first 77 characters plus `"..."`. -/
def truncHeader (h : Str) : Str :=
  if 80 < h.length then h.take 77 ++ ("...").data else h

/-- The finished long-form document: body placements plus the final
header/footer pass, which runs over `pdf.getNumberOfPages()` pages once
the whole document is laid out. -/
structure Report where
  body : FState
  headers : List Str
  footers : List Str
deriving DecidableEq, Repr

/-- `exportFinalReportToPdf`: split the markdown into lines, run the
render loop, then stamp every page `i` of the final page count `n` with
the (truncated) header and the footer `Page i of n`. -/
def exportFinalReportToPdf (split : Str → Int → List Str) (markdown : Str)
    (articleTitle : Option Str) : Report :=
  let body := (splitOnSep '\n' markdown).foldl (processLine split) initState
  { body := body
  , headers := List.replicate body.pages (truncHeader (headerTextOf articleTitle))
  , footers := (List.range body.pages).map (fun i => pageOfStr (i + 1) body.pages) }

end FinalReport

/- ======================================================================
   Pairwise-comparison renderer (source: `exportPairwiseComparisonsToPdf`).
   The input `Record<string, PairwiseComparison>` is modelled by the list
   `Object.values(comparisons)` that the function actually iterates.
   Fields read through optional chaining / defensive `&&` checks in the
   source are modelled as `Option`; fields interpolated directly into
   template strings are plain `Str`.
   ====================================================================== -/

namespace Pairwise

/-- One comparison dimension. -/
structure CompDim where
  label : Str
  mainSummary : Option Str
  relatedSummary : Option Str
  mainScore : Option Nat
  relatedScore : Option Nat
  verdict : Str
  confidence : Str
deriving DecidableEq, Repr

/-- A similarity claim with a confidence level. -/
structure ConfClaim where
  claim : Str
  confidence : Str
deriving DecidableEq, Repr

/-- A difference claim with confidence and a favored paper. -/
structure DiffClaim where
  claim : Str
  confidence : Str
  favoredPaper : Str
deriving DecidableEq, Repr

/-- The three gap-analysis lists. -/
structure GapAnalysis where
  uniqueToMain : Option (List Str)
  uniqueToRelated : Option (List Str)
  sharedGaps : Option (List Str)
deriving DecidableEq, Repr

/-- A contradiction entry. -/
structure Contradiction where
  topic : Option Str
  mainPosition : Str
  relatedPosition : Str
  possibleExplanation : Str
deriving DecidableEq, Repr

/-- One row of the methodological-rigor table. -/
structure RigorRow where
  main : Option Str
  related : Option Str
  verdict : Str
deriving DecidableEq, Repr

/-- The four methodological-rigor rows. -/
structure Rigor where
  sampleSizeAdequacy : Option RigorRow
  biasControls : Option RigorRow
  statisticalRigor : Option RigorRow
  replicability : Option RigorRow
deriving DecidableEq, Repr

/-- The temporal-context block. -/
structure TemporalContext where
  chronologicalNote : Option Str
  methodologicalEvolution : Option Str
  findingsProgression : Option Str
deriving DecidableEq, Repr

/-- The overall verdict. -/
structure OverallVerdict where
  strongerPaper : Str
  explanation : Option Str
deriving DecidableEq, Repr

/-- The recommendations block. -/
structure Recommendations where
  forResearchers : Option (List Str)
  forPractitioners : Option (List Str)
  synthesizedConclusion : Option Str
deriving DecidableEq, Repr

/-- One pairwise comparison record. -/
structure PairwiseComparison where
  relatedTitle : Str
  isRelated : Bool
  relatednessScore : Nat
  relatednessExplanation : Option Str
  summary : Option Str
  dimensions : Option (List CompDim)
  similarities : Option (List ConfClaim)
  differences : Option (List DiffClaim)
  gapAnalysis : Option GapAnalysis
  contradictions : Option (List Contradiction)
  methodologicalRigor : Option Rigor
  temporalContext : Option TemporalContext
  overallVerdict : Option OverallVerdict
  recommendations : Option Recommendations
deriving DecidableEq, Repr

/-- Layout state of `exportPairwiseComparisonsToPdf`: cursor, current
page count and placement trace (the current page is always the last
one). -/
structure PState where
  y : Int
  pages : Nat
  placed : List Placement
deriving DecidableEq, Repr

/-- `checkPageBreak`: start a new page, resetting the cursor to the top
margin, whenever placing `req` more height would cross
`pageHeight - margin`. -/
def checkPageBreak (req : Int) (st : PState) : PState :=
  if pageH - pdfMargin < st.y + req then
    { st with pages := st.pages + 1, y := pdfMargin }
  else st

/-- Record one `pdf.text` call on the current page at the current `y`. -/
def place (st : PState) (t : Str) (h : Int) : PState :=
  { st with placed := st.placed ++ [⟨t, st.pages, st.y, h⟩] }

/-- The per-line loop of `addText`: page-break check, place, advance by
`fontSize * 1.4` (passed in as `h`). -/
def placeLines (h : Int) : PState → List Str → PState
  | st, [] => st
  | st, l :: ls =>
    let st1 := checkPageBreak h st
    let st2 := place st1 l h
    placeLines h { st2 with y := st2.y + h } ls

/-- Place lines without any page-break check (the `for (j = 1; ...)`
loops of the dimension block): place at the current `y`, advance. -/
def placeLinesNoCheck (h : Int) : PState → List Str → PState
  | st, [] => st
  | st, l :: ls =>
    let st1 := place st l h
    placeLinesNoCheck h { st1 with y := st1.y + h } ls

/-- `addText` of the pairwise renderer: skip falsy text, wrap to
`contentWidth - indent`, lay out with a per-line page-break check and a
`fontSize * 1.4` line height. -/
def addText (split : Str → Int → List Str) (st : PState) (t : Option Str)
    (size : Int) (_color : Str) (_bold : Bool) (indent : Int) : PState :=
  match t with
  | none => st
  | some s =>
    if s.isEmpty then st
    else placeLines (size * 140) st (split s (contentW - indent))

/-- Title color `#18181b`. -/
def colTitle : Str := ("#18181b").data

/-- Heading color `#27272a`. -/
def colHeading : Str := ("#27272a").data

/-- Subheading color `#3f3f46`. -/
def colSub : Str := ("#3f3f46").data

/-- Text color `#52525b`. -/
def colText : Str := ("#52525b").data

/-- Muted color `#71717a`. -/
def colMuted : Str := ("#71717a").data

/-- Emerald accent `#10b981`. -/
def colEmerald : Str := ("#10b981").data

/-- Blue accent `#3b82f6`. -/
def colBlue : Str := ("#3b82f6").data

/-- Purple accent `#a855f7`. -/
def colPurple : Str := ("#a855f7").data

/-- Red accent `#ef4444`. -/
def colRed : Str := ("#ef4444").data

/-- The plural suffix `${n !== 1 ? "s" : ""}`. -/
def plural (n : Nat) : Str := if n ≠ 1 then ("s").data else []

/-- Confidence tag `H`/`M`/`L`. -/
def confLabel (c : Str) : Str :=
  if c = ("high").data then ("H").data
  else if c = ("medium").data then ("M").data
  else ("L").data

/-- Favored-paper tag for a difference entry. -/
def favorLabel (f : Str) : Str :=
  if f = ("main").data then ("→Main").data
  else if f = ("related").data then ("→Rel").data
  else ("—").data

/-- Verdict tag of a comparison dimension. -/
def dimVerdictLabel (v : Str) : Str :=
  if v = ("main_stronger").data then ("[Main ▲]").data
  else if v = ("related_stronger").data then ("[Related ▲]").data
  else if v = ("comparable").data then ("[Equal]").data
  else ("[N/A]").data

/-- Verdict tag of a methodological-rigor row. -/
def rigorVerdictLabel (v : Str) : Str :=
  if v = ("main_stronger").data then ("[Main ▲]").data
  else if v = ("related_stronger").data then ("[Related ▲]").data
  else ("[Equal]").data

/-- Color of the overall verdict line. -/
def verdictColor3 (s : Str) : Str :=
  if s = ("main").data then colEmerald
  else if s = ("related").data then colBlue
  else colPurple

/-- Number of comparisons whose overall verdict names `v` as the
stronger paper (`c.overallVerdict?.strongerPaper === v`). -/
def countVerdict (v : Str) (cs : List PairwiseComparison) : Nat :=
  (cs.filter (fun c =>
    match c.overallVerdict with
    | some ov => ov.strongerPaper == v
    | none => false)).length

/-- The per-dimension block of the comparison loop: one page-break
check for a nominal 80 pt, the label row (label, verdict tag, optional
scores, all on one baseline), then the two side-by-side labeled
summaries.  Each summary places its label via `addText`, rewinds the
cursor by one 9 pt line, places the first wrapped line on the label's
row, and then places the remaining wrapped lines *without any page-break
check*. -/
def renderDim (split : Str → Int → List Str) (st : PState) (dim : CompDim) : PState :=
  let st := checkPageBreak 8000 st
  let st := place st dim.label 1400
  let st := place st ((" ").data ++ dimVerdictLabel dim.verdict) 1400
  let st :=
    if dim.mainScore.getD 0 ≠ 0 ∧ dim.relatedScore.getD 0 ≠ 0 then
      place st ((" (Main: ").data ++ natStr (dim.mainScore.getD 0) ++
        ("/5, Related: ").data ++ natStr (dim.relatedScore.getD 0) ++ ("/5)").data) 1120
    else st
  let st := { st with y := st.y + 1400 }
  let st := addText split st (some (("Main: ").data)) 9 colEmerald true 1600
  let st := { st with y := st.y - 1260 }
  let mainLines := split (dim.mainSummary.getD (("N/A").data)) (contentW - 5000)
  let st := place st (mainLines.headD []) 1260
  let st := { st with y := st.y + 1260 }
  let st := placeLinesNoCheck 1260 st mainLines.tail
  let st := addText split st (some (("Related: ").data)) 9 colBlue true 1600
  let st := { st with y := st.y - 1260 }
  let relLines := split (dim.relatedSummary.getD (("N/A").data)) (contentW - 6000)
  let st := place st (relLines.headD []) 1260
  let st := { st with y := st.y + 1260 }
  let st := placeLinesNoCheck 1260 st relLines.tail
  { st with y := st.y + 600 }

/-- One similarity entry. -/
def renderSimilarity (split : Str → Int → List Str) (st : PState) (s : ConfClaim) : PState :=
  let st := checkPageBreak 2000 st
  addText split st (some (("• [").data ++ confLabel s.confidence ++ ("] ").data ++ s.claim))
    9 colText false 800

/-- One difference entry. -/
def renderDifference (split : Str → Int → List Str) (st : PState) (d : DiffClaim) : PState :=
  let st := checkPageBreak 2000 st
  addText split st (some (("• [").data ++ favorLabel d.favoredPaper ++ ("] ").data ++ d.claim))
    9 colText false 800

/-- One gap-analysis sub-list: rendered only when present and
non-empty, as a colored header followed by bulleted items. -/
def renderGapSection (split : Str → Int → List Str) (st : PState) (hdr : Str)
    (color : Str) (items : Option (List Str)) : PState :=
  match items with
  | some gs =>
    if gs.isEmpty then st
    else
      let st := addText split st (some hdr) 10 color true 800
      gs.foldl (fun st g => addText split st (some (("• ").data ++ g)) 9 colText false 1600) st
  | none => st

/-- One contradiction entry. -/
def renderContradiction (split : Str → Int → List Str) (st : PState) (c : Contradiction) : PState :=
  let st := checkPageBreak 5000 st
  let st := addText split st c.topic 10 colSub true 800
  let st := addText split st (some (("Main position: ").data ++ c.mainPosition)) 9 colText false 1600
  let st := addText split st (some (("Related position: ").data ++ c.relatedPosition)) 9 colText false 1600
  let st := addText split st (some (("Explanation: ").data ++ c.possibleExplanation)) 9 colMuted false 1600
  { st with y := st.y + 400 }

/-- One methodological-rigor row (skipped when its data is missing). -/
def renderRigorItem (split : Str → Int → List Str) (st : PState) (label : Str)
    (data : Option RigorRow) : PState :=
  match data with
  | none => st
  | some d =>
    let st := checkPageBreak 4000 st
    let st := addText split st (some (label ++ (" ").data ++ rigorVerdictLabel d.verdict)) 10 colSub true 800
    let st := addText split st (some (("Main: ").data ++ d.main.getD (("N/A").data))) 9 colText false 1600
    let st := addText split st (some (("Related: ").data ++ d.related.getD (("N/A").data))) 9 colText false 1600
    { st with y := st.y + 200 }

/-- One full comparison record (`i` is its 0-based index): a fresh page
for every record after the first, then header, relatedness, summary,
overall verdict, dimensions, similarities, differences, gap analysis,
contradictions, methodological rigor, temporal context and
recommendations, exactly in the source's order. -/
def renderComparison (split : Str → Int → List Str) (i : Nat) (st : PState)
    (c : PairwiseComparison) : PState :=
  let st := if 0 < i then { st with pages := st.pages + 1, y := pdfMargin } else st
  let st := addText split st
    (some (("Comparison ").data ++ natStr (i + 1) ++ (": ").data ++ c.relatedTitle)) 16 colTitle true 0
  let st := { st with y := st.y + 400 }
  let st :=
    if c.isRelated then
      addText split st (some (("Relatedness Score: ").data ++ natStr c.relatednessScore ++
        ("/5 - Papers are related").data)) 10 colEmerald true 0
    else
      let st := addText split st (some (("⚠ UNRELATED: This paper may not be relevant").data)) 10 colRed true 0
      let st := { st with y := st.y + 200 }
      addText split st c.relatednessExplanation 9 colText false 800
  let st := { st with y := st.y + 1200 }
  let st := addText split st (some (("Summary").data)) 12 colHeading true 0
  let st := { st with y := st.y + 400 }
  let st := addText split st c.summary 10 colText false 0
  let st := { st with y := st.y + 1200 }
  let st :=
    match c.overallVerdict with
    | none => st
    | some ov =>
      let st := checkPageBreak 6000 st
      let st := addText split st (some (("Overall Verdict").data)) 12 colHeading true 0
      let st := { st with y := st.y + 400 }
      let vt :=
        if ov.strongerPaper = ("main").data then ("Main Article is Stronger").data
        else if ov.strongerPaper = ("related").data then c.relatedTitle ++ (" is Stronger").data
        else ("Papers are Comparable").data
      let st := addText split st (some vt) 11 (verdictColor3 ov.strongerPaper) true 800
      let st := addText split st ov.explanation 10 colText false 800
      { st with y := st.y + 1200 }
  let st :=
    match c.dimensions with
    | some ds =>
      if ds.isEmpty then st
      else
        let st := checkPageBreak 4000 st
        let st := addText split st (some (("Comparison Dimensions").data)) 12 colHeading true 0
        let st := { st with y := st.y + 800 }
        let st := ds.foldl (renderDim split) st
        { st with y := st.y + 800 }
    | none => st
  let st :=
    match c.similarities with
    | some ss =>
      if ss.isEmpty then st
      else
        let st := checkPageBreak 4000 st
        let st := addText split st (some (("Similarities (").data ++ natStr ss.length ++ (")").data))
          12 colHeading true 0
        let st := { st with y := st.y + 400 }
        let st := ss.foldl (renderSimilarity split) st
        { st with y := st.y + 800 }
    | none => st
  let st :=
    match c.differences with
    | some ds =>
      if ds.isEmpty then st
      else
        let st := checkPageBreak 4000 st
        let st := addText split st (some (("Differences (").data ++ natStr ds.length ++ (")").data))
          12 colHeading true 0
        let st := { st with y := st.y + 400 }
        let st := ds.foldl (renderDifference split) st
        { st with y := st.y + 800 }
    | none => st
  let st :=
    match c.gapAnalysis with
    | some g =>
      let st := checkPageBreak 6000 st
      let st := addText split st (some (("Gap Analysis").data)) 12 colHeading true 0
      let st := { st with y := st.y + 400 }
      let st := renderGapSection split st (("Unique to Main Article:").data) colEmerald g.uniqueToMain
      let st := renderGapSection split st (("Unique to Related Article:").data) colBlue g.uniqueToRelated
      let st := renderGapSection split st (("Shared Gaps:").data) colMuted g.sharedGaps
      { st with y := st.y + 800 }
    | none => st
  let st :=
    match c.contradictions with
    | some cs =>
      if cs.isEmpty then st
      else
        let st := checkPageBreak 6000 st
        let st := addText split st (some (("Contradictions (").data ++ natStr cs.length ++ (")").data))
          12 colRed true 0
        let st := { st with y := st.y + 400 }
        let st := cs.foldl (renderContradiction split) st
        { st with y := st.y + 800 }
    | none => st
  let st :=
    match c.methodologicalRigor with
    | some r =>
      let st := checkPageBreak 8000 st
      let st := addText split st (some (("Methodological Rigor").data)) 12 colHeading true 0
      let st := { st with y := st.y + 400 }
      let st := renderRigorItem split st (("Sample Size Adequacy").data) r.sampleSizeAdequacy
      let st := renderRigorItem split st (("Bias Controls").data) r.biasControls
      let st := renderRigorItem split st (("Statistical Rigor").data) r.statisticalRigor
      let st := renderRigorItem split st (("Replicability").data) r.replicability
      { st with y := st.y + 800 }
    | none => st
  let st :=
    match c.temporalContext with
    | some t =>
      let st := checkPageBreak 6000 st
      let st := addText split st (some (("Temporal Context").data)) 12 colHeading true 0
      let st := { st with y := st.y + 400 }
      let st := addText split st (some (("Chronology: ").data ++ t.chronologicalNote.getD (("N/A").data)))
        9 colText false 800
      let st := addText split st (some (("Method Evolution: ").data ++ t.methodologicalEvolution.getD (("N/A").data)))
        9 colText false 800
      let st := addText split st (some (("Findings Progression: ").data ++ t.findingsProgression.getD (("N/A").data)))
        9 colText false 800
      { st with y := st.y + 800 }
    | none => st
  match c.recommendations with
  | some rec =>
    let st := checkPageBreak 8000 st
    let st := addText split st (some (("Recommendations").data)) 12 colHeading true 0
    let st := { st with y := st.y + 400 }
    let st :=
      match rec.forResearchers with
      | some rs =>
        if rs.isEmpty then st
        else
          let st := addText split st (some (("For Researchers:").data)) 10 colSub true 800
          rs.foldl (fun st r => addText split st (some (("• ").data ++ r)) 9 colText false 1600) st
      | none => st
    let st :=
      match rec.forPractitioners with
      | some rs =>
        if rs.isEmpty then st
        else
          let st := addText split st (some (("For Practitioners:").data)) 10 colSub true 800
          rs.foldl (fun st r => addText split st (some (("• ").data ++ r)) 9 colText false 1600) st
      | none => st
    if (rec.synthesizedConclusion.getD []).isEmpty then st
    else
      let st := { st with y := st.y + 400 }
      let st := addText split st (some (("Synthesized Conclusion:").data)) 10 colSub true 800
      addText split st rec.synthesizedConclusion 9 colText false 800
  | none => st

/-- The indexed loop over all comparison records. -/
def renderComparisons (split : Str → Int → List Str) :
    Nat → PState → List PairwiseComparison → PState
  | _, st, [] => st
  | i, st, c :: cs => renderComparisons split (i + 1) (renderComparison split i st c) cs

/-- The finished pairwise document: body placements plus the final
footer pass over the final page count. -/
structure PairReport where
  body : PState
  footers : List Str
deriving DecidableEq, Repr

/-- `exportPairwiseComparisonsToPdf`: title block, summary statistics,
the per-comparison loop, then the footer pass stamping every page `i`
of the final page count `n` with `Page i of n • Generated by RUI`. -/
def exportPairwiseComparisonsToPdf (split : Str → Int → List Str)
    (comparisons : List PairwiseComparison) (mainTitle : Option Str) : PairReport :=
  let n := comparisons.length
  let relatedCount := (comparisons.filter (fun c => c.isRelated)).length
  let unrelatedCount := (comparisons.filter (fun c => !c.isRelated)).length
  let st : PState := { y := pdfMargin, pages := 1, placed := [] }
  let st := addText split st (some (("Pairwise Comparative Analysis").data)) 24 colTitle true 0
  let st := { st with y := st.y + 800 }
  let st :=
    match mainTitle with
    | some t => addText split st (some (("Main Article: ").data ++ t)) 12 colSub false 0
    | none => st
  let st := { st with y := st.y + 400 }
  let st := addText split st
    (some (("Comparing ").data ++ natStr n ++ (" related article").data ++ plural n)) 11 colMuted false 0
  let st := { st with y := st.y + 1600 + 1600 }
  let st := addText split st (some (("Summary Statistics").data)) 14 colHeading true 0
  let st := { st with y := st.y + 800 }
  let st := addText split st (some (("• Total articles compared: ").data ++ natStr n)) 10 colText false 800
  let st := addText split st (some (("• Related articles: ").data ++ natStr relatedCount)) 10 colEmerald false 800
  let st :=
    if 0 < unrelatedCount then
      addText split st (some (("• Unrelated articles: ").data ++ natStr unrelatedCount ++
        (" (may not be relevant)").data)) 10 colRed false 800
    else st
  let mainStronger := countVerdict (("main").data) comparisons
  let relatedStronger := countVerdict (("related").data) comparisons
  let comparable := countVerdict (("comparable").data) comparisons
  let st := { st with y := st.y + 400 }
  let st := addText split st (some (("• Main article stronger in: ").data ++ natStr mainStronger ++
    (" comparison").data ++ plural mainStronger)) 10 colText false 800
  let st := addText split st (some (("• Related article stronger in: ").data ++ natStr relatedStronger ++
    (" comparison").data ++ plural relatedStronger)) 10 colText false 800
  let st := addText split st (some (("• Comparable: ").data ++ natStr comparable ++
    (" comparison").data ++ plural comparable)) 10 colText false 800
  let st := { st with y := st.y + 2000 + 2000 }
  let body := renderComparisons split 0 st comparisons
  { body := body
  , footers := (List.range body.pages).map
      (fun i => pageOfStr (i + 1) body.pages ++ (" • Generated by RUI").data) }

end Pairwise

/- ======================================================================
   Concrete inputs used by witnesses, scenario checks and
   counterexamples.
   ====================================================================== -/

/-- A decoder that always succeeds (models `canvas.toDataURL` returning
a non-empty PNG data URL). -/
def pngDecode : ImgData → Str := fun _ => ("png").data

/-- A page whose operator list paints: `Im1` (60x80, twice — the second
paint is a same-page duplicate), `Im2` (40x40, below the 50-pixel
threshold), an image operator without a name argument, and a non-image
operator. -/
def pageWithImages : PdfPage :=
  { items := [some (("hello").data), none, some [], some (("world").data)]
  , ops := some [ (85, some (("Im1").data)), (85, some (("Im1").data))
                , (86, some (("Im2").data)), (82, none), (20, some (("Im3").data)) ]
  , objs := fun n =>
      if n = ("Im1").data then .ok (some ⟨true, 60, 80⟩)
      else if n = ("Im2").data then .ok (some ⟨true, 40, 40⟩)
      else .ok none
  , commonObjs := fun _ => .ok none }

/-- The 60x80 image extracted from `pageWithImages`. -/
def img60 : ExtractedImage := ⟨("png").data, 60, 80⟩

/-- A page whose `getOperatorList()` rejects. -/
def pageNoOps : PdfPage :=
  { items := [some (("text survives").data)]
  , ops := none
  , objs := fun _ => .ok none
  , commonObjs := fun _ => .ok none }

/-- A page whose object-table lookup throws for every name. -/
def pageThrow : PdfPage :=
  { items := []
  , ops := some [(85, some (("X").data))]
  , objs := fun _ => .error ()
  , commonObjs := fun _ => .ok none }

/-- A page on which no pixel data resolves: both object tables return
null/undefined for every name. -/
def pageNoData : PdfPage :=
  { items := []
  , ops := some [(86, some (("X").data))]
  , objs := fun _ => .ok none
  , commonObjs := fun _ => .ok none }

/-- A page whose resolved image object has no (truthy) `data` field. -/
def pageFalsy : PdfPage :=
  { items := []
  , ops := some [(82, some (("X").data))]
  , objs := fun _ => .ok (some ⟨false, 60, 80⟩)
  , commonObjs := fun _ => .ok none }

/-- A page that resolves a well-formed 60x80 image for every name. -/
def pageBig : PdfPage :=
  { items := []
  , ops := some [(85, some (("X").data))]
  , objs := fun _ => .ok (some ⟨true, 60, 80⟩)
  , commonObjs := fun _ => .ok none }

/-- A decoder that always fails (models `canvas.getContext("2d")`
returning null, so `imageDataToDataUrl` returns the empty string). -/
def emptyDecode : ImgData → Str := fun _ => []

/-- A page whose first painted image throws on resolution while its
second resolves to a 60x80 image: the scan skips only the first. -/
def pageMixed : PdfPage :=
  { items := []
  , ops := some [(85, some (("X").data)), (85, some (("Im1").data))]
  , objs := fun n => if n = ("X").data then .error () else .ok (some ⟨true, 60, 80⟩)
  , commonObjs := fun _ => .ok none }

/-- Scenario markdown for the two-page long-form document: a single
paragraph of 49 words, each of which `wordSplit` puts on its own line;
48 lines fit between `margin + headerHeight` and `pageHeight - margin`
at 10 pt body size, so the paragraph spills onto a second page. -/
def scenarioMd : Str := joinSpace (List.replicate 49 (("w").data))

/-- The scenario slug title. -/
def scenarioTitle : Str := ("A Study: Effects!! of X (2024)").data

/-- A dimension summary long enough that its wrapped continuation lines
overflow the page (120 one-word lines under `wordSplit`). -/
def longSummary : Str := joinSpace (List.replicate 120 (("x").data))

/-- A comparison record with a single dimension whose main summary is
`longSummary`; all optional sections are absent. -/
def cmpOverflow : Pairwise.PairwiseComparison :=
  { relatedTitle := ("T").data
  , isRelated := true
  , relatednessScore := 3
  , relatednessExplanation := none
  , summary := none
  , dimensions := some [
      { label := ("L").data
      , mainSummary := some longSummary
      , relatedSummary := none
      , mainScore := none
      , relatedScore := none
      , verdict := ("comparable").data
      , confidence := ("high").data } ]
  , similarities := none
  , differences := none
  , gapAnalysis := none
  , contradictions := none
  , methodologicalRigor := none
  , temporalContext := none
  , overallVerdict := none
  , recommendations := none }

/- ======================================================================
   Helper lemmas.
   ====================================================================== -/

theorem extractPages_length (decode : ImgData → Str) :
    ∀ (ps : List PdfPage) (n : Nat), (extractPages decode n ps).length = ps.length := by
  intro ps
  induction ps with
  | nil => intro n; rfl
  | cons p ps ih => intro n; simp [extractPages, ih]

theorem extractPages_map_pageNumber (decode : ImgData → Str) :
    ∀ (ps : List PdfPage) (n : Nat),
      (extractPages decode n ps).map (·.pageNumber) = (List.range ps.length).map (· + n) := by
  intro ps
  induction ps with
  | nil => intro n; rfl
  | cons p ps ih =>
    intro n
    simp only [extractPages, extractPage, List.map_cons, List.length_cons,
      List.range_succ_eq_map, List.map_map, ih]
    rw [Nat.zero_add]
    congr 1
    apply List.map_congr_left
    intro a _
    simp only [Function.comp, Nat.succ_eq_add_one]
    omega

theorem extractPages_map_text (decode : ImgData → Str) :
    ∀ (ps : List PdfPage) (n : Nat),
      (extractPages decode n ps).map (·.text) = ps.map pageText := by
  intro ps
  induction ps with
  | nil => intro n; rfl
  | cons p ps ih => intro n; simp [extractPages, extractPage, ih]

theorem rawFullText_eq_joinBlank_append :
    ∀ ts : List Str, ts ≠ [] → rawFullText ts = joinBlank ts ++ nl2 := by
  intro ts
  induction ts with
  | nil => intro h; exact absurd rfl h
  | cons t ts ih =>
    intro _
    cases ts with
    | nil => simp [rawFullText, joinBlank]
    | cons u us =>
      rw [show rawFullText (t :: u :: us) = t ++ nl2 ++ rawFullText (u :: us) from rfl,
        ih (by simp)]
      simp [joinBlank, List.append_assoc]

theorem trimR_append_nl2 (s : Str) : trimR (s ++ nl2) = trimR s := by
  simp [trimR, nl2, List.reverse_append, List.dropWhile, isWs]

theorem trim_append_nl2 (s : Str) : trim (s ++ nl2) = trim s := by
  simp [trim, trimR_append_nl2]

theorem trim_rawFullText (ts : List Str) :
    trim (rawFullText ts) = trim (joinBlank ts) := by
  cases h : ts with
  | nil => rfl
  | cons t ts' =>
    rw [rawFullText_eq_joinBlank_append (t :: ts') (by simp), trim_append_nl2]

/-- claim C1: for every document that opens, extraction yields one
`ExtractedPage` per source page with `pageNumber` running `1..N` in
source order, and `fullText` equals the page texts joined by a blank
line and trimmed. -/
theorem spec_C1 (decode : ImgData → Str) (ps : List PdfPage) :
    (extractBody decode ps).pages.length = ps.length ∧
    (extractBody decode ps).pages.map (·.pageNumber) = (List.range ps.length).map (· + 1) ∧
    (extractBody decode ps).fullText
      = trim (joinBlank ((extractBody decode ps).pages.map (·.text))) := by
  refine ⟨extractPages_length decode ps 1, extractPages_map_pageNumber decode ps 1, ?_⟩
  show trim (rawFullText (ps.map pageText))
    = trim (joinBlank ((extractPages decode 1 ps).map (·.text)))
  rw [extractPages_map_text decode ps 1, trim_rawFullText]

theorem tryExtractImage_none_of_throw (decode : ImgData → Str) (page : PdfPage)
    (name : Str) (h : resolveImg page name = .error ()) :
    tryExtractImage decode page name = none := by
  unfold tryExtractImage
  rw [h]

theorem tryExtractImage_none_of_unresolved (decode : ImgData → Str) (page : PdfPage)
    (name : Str) (h : resolveImg page name = .ok none) :
    tryExtractImage decode page name = none := by
  unfold tryExtractImage
  rw [h]

theorem tryExtractImage_none_of_falsy (decode : ImgData → Str) (page : PdfPage)
    (name : Str) (img : ImgData) (hres : resolveImg page name = .ok (some img))
    (hfalsy : ¬(img.hasData = true ∧ img.width ≠ 0 ∧ img.height ≠ 0)) :
    tryExtractImage decode page name = none := by
  unfold tryExtractImage
  rw [hres]
  simp [hfalsy]

theorem tryExtractImage_none_of_decode_empty (decode : ImgData → Str) (page : PdfPage)
    (name : Str) (img : ImgData) (hres : resolveImg page name = .ok (some img))
    (hdec : decode img = []) :
    tryExtractImage decode page name = none := by
  unfold tryExtractImage
  rw [hres]
  simp [hdec]

theorem scanImages_skip (decode : ImgData → Str) (page : PdfPage) (fn : Nat)
    (name : Str) (rest : List (Nat × Option Str)) (seen : List Str)
    (hfn : fn = OPS_PAINT_IMAGE_XOBJECT ∨ fn = OPS_PAINT_IMAGE_XOBJECT_REPEAT ∨
      fn = OPS_PAINT_JPEG_XOBJECT)
    (hname : ¬(name = [] ∨ name ∈ seen))
    (htry : tryExtractImage decode page name = none) :
    scanImages decode page ((fn, some name) :: rest) seen
      = scanImages decode page rest (name :: seen) := by
  simp [scanImages, hfn, hname, htry]

/-- claim C3: failures below the document level are non-fatal and
localized — a page whose operator-list resolution fails still has its
text extracted and merely an empty image list; a per-image failure of
any kind (a throwing resolution, no pixel data resolving from either
object table, a resolved object without truthy data/width/height, or a
failing decode returning the empty data URL) skips exactly that image
(only marking its name as seen) and the scan continues with the rest of
the operator list; and `extractPdfWithPages` itself succeeds on every
opened document and fails exactly when the document cannot be opened. -/
theorem spec_C3 :
    (∀ (decode : ImgData → Str) (n : Nat) (page : PdfPage), page.ops = none →
      extractPage decode n page = ⟨n, pageText page, []⟩) ∧
    (∀ (decode : ImgData → Str) (page : PdfPage) (fn : Nat) (name : Str)
        (rest : List (Nat × Option Str)) (seen : List Str),
      (fn = OPS_PAINT_IMAGE_XOBJECT ∨ fn = OPS_PAINT_IMAGE_XOBJECT_REPEAT ∨
        fn = OPS_PAINT_JPEG_XOBJECT) →
      ¬(name = [] ∨ name ∈ seen) →
      resolveImg page name = .error () →
      scanImages decode page ((fn, some name) :: rest) seen
        = scanImages decode page rest (name :: seen)) ∧
    (∀ (decode : ImgData → Str) (page : PdfPage) (fn : Nat) (name : Str)
        (rest : List (Nat × Option Str)) (seen : List Str),
      (fn = OPS_PAINT_IMAGE_XOBJECT ∨ fn = OPS_PAINT_IMAGE_XOBJECT_REPEAT ∨
        fn = OPS_PAINT_JPEG_XOBJECT) →
      ¬(name = [] ∨ name ∈ seen) →
      resolveImg page name = .ok none →
      scanImages decode page ((fn, some name) :: rest) seen
        = scanImages decode page rest (name :: seen)) ∧
    (∀ (decode : ImgData → Str) (page : PdfPage) (fn : Nat) (name : Str)
        (rest : List (Nat × Option Str)) (seen : List Str) (img : ImgData),
      (fn = OPS_PAINT_IMAGE_XOBJECT ∨ fn = OPS_PAINT_IMAGE_XOBJECT_REPEAT ∨
        fn = OPS_PAINT_JPEG_XOBJECT) →
      ¬(name = [] ∨ name ∈ seen) →
      resolveImg page name = .ok (some img) →
      ¬(img.hasData = true ∧ img.width ≠ 0 ∧ img.height ≠ 0) →
      scanImages decode page ((fn, some name) :: rest) seen
        = scanImages decode page rest (name :: seen)) ∧
    (∀ (decode : ImgData → Str) (page : PdfPage) (fn : Nat) (name : Str)
        (rest : List (Nat × Option Str)) (seen : List Str) (img : ImgData),
      (fn = OPS_PAINT_IMAGE_XOBJECT ∨ fn = OPS_PAINT_IMAGE_XOBJECT_REPEAT ∨
        fn = OPS_PAINT_JPEG_XOBJECT) →
      ¬(name = [] ∨ name ∈ seen) →
      resolveImg page name = .ok (some img) →
      decode img = [] →
      scanImages decode page ((fn, some name) :: rest) seen
        = scanImages decode page rest (name :: seen)) ∧
    (∀ (decode : ImgData → Str) (ps : List PdfPage),
      extractPdfWithPages decode (some ps) = .ok (extractBody decode ps)) ∧
    (∀ decode : ImgData → Str, extractPdfWithPages decode none = .error ()) := by
  refine ⟨?_, ?_, ?_, ?_, ?_, fun _ _ => rfl, fun _ => rfl⟩
  · intro decode n page h
    simp [extractPage, extractImagesFromPage, extractImagesFromPageNamed, h]
  · intro decode page fn name rest seen hfn hname hthrow
    exact scanImages_skip decode page fn name rest seen hfn hname
      (tryExtractImage_none_of_throw decode page name hthrow)
  · intro decode page fn name rest seen hfn hname hnull
    exact scanImages_skip decode page fn name rest seen hfn hname
      (tryExtractImage_none_of_unresolved decode page name hnull)
  · intro decode page fn name rest seen img hfn hname hres hfalsy
    exact scanImages_skip decode page fn name rest seen hfn hname
      (tryExtractImage_none_of_falsy decode page name img hres hfalsy)
  · intro decode page fn name rest seen img hfn hname hres hdec
    exact scanImages_skip decode page fn name rest seen hfn hname
      (tryExtractImage_none_of_decode_empty decode page name img hres hdec)

/-- Witness for C3 at concrete inputs: a page with a rejected operator
list keeps its text and has no images; a throwing object table, an
unresolved (null) object, a resolved object without pixel data, and a
failing decoder each skip only their image while the scan continues; on
a page mixing a throwing resource with a good one, only the good image
is extracted; opening failure is the sole fatal case. -/
theorem spec_C3_witness :
    (pageNoOps.ops = none ∧
      extractPage pngDecode 1 pageNoOps = ⟨1, pageText pageNoOps, []⟩) ∧
    (resolveImg pageThrow (("X").data) = .error () ∧
      scanImages pngDecode pageThrow [(85, some (("X").data))] []
        = scanImages pngDecode pageThrow [] [("X").data]) ∧
    (resolveImg pageNoData (("X").data) = .ok none ∧
      scanImages pngDecode pageNoData [(86, some (("X").data))] []
        = scanImages pngDecode pageNoData [] [("X").data]) ∧
    (resolveImg pageFalsy (("X").data) = .ok (some ⟨false, 60, 80⟩) ∧
      scanImages pngDecode pageFalsy [(82, some (("X").data))] []
        = scanImages pngDecode pageFalsy [] [("X").data]) ∧
    (resolveImg pageBig (("X").data) = .ok (some ⟨true, 60, 80⟩) ∧
      emptyDecode ⟨true, 60, 80⟩ = [] ∧
      scanImages emptyDecode pageBig [(85, some (("X").data))] []
        = scanImages emptyDecode pageBig [] [("X").data]) ∧
    extractImagesFromPage pngDecode pageMixed = [img60] ∧
    extractPdfWithPages pngDecode (some [pageThrow])
      = .ok (extractBody pngDecode [pageThrow]) ∧
    extractPdfWithPages pngDecode none = .error () :=
  ⟨⟨rfl, spec_C3.1 pngDecode 1 pageNoOps rfl⟩,
   ⟨rfl, spec_C3.2.1 pngDecode pageThrow 85 (("X").data) [] []
      (Or.inl rfl) (by decide) rfl⟩,
   ⟨rfl, spec_C3.2.2.1 pngDecode pageNoData 86 (("X").data) [] []
      (Or.inr (Or.inl rfl)) (by decide) rfl⟩,
   ⟨rfl, spec_C3.2.2.2.1 pngDecode pageFalsy 82 (("X").data) [] [] ⟨false, 60, 80⟩
      (Or.inr (Or.inr rfl)) (by decide) rfl (by decide)⟩,
   ⟨rfl, rfl, spec_C3.2.2.2.2.1 emptyDecode pageBig 85 (("X").data) [] [] ⟨true, 60, 80⟩
      (Or.inl rfl) (by decide) rfl rfl⟩,
   by decide,
   spec_C3.2.2.2.2.2.1 pngDecode [pageThrow],
   spec_C3.2.2.2.2.2.2 pngDecode⟩

theorem tryExtractImage_bounds (decode : ImgData → Str) (page : PdfPage) (name : Str)
    (img : ExtractedImage) (h : tryExtractImage decode page name = some img) :
    50 ≤ img.width ∧ 50 ≤ img.height := by
  unfold tryExtractImage at h
  split at h
  · exact absurd h (by simp)
  · exact absurd h (by simp)
  · split at h
    · split at h
      · exact absurd h (by simp)
      · split at h
        · exact absurd h (by simp)
        · rename_i hsmall _
          cases h
          constructor <;> simp <;> omega
    · exact absurd h (by simp)

theorem scanImages_mem_bounds (decode : ImgData → Str) (page : PdfPage) :
    ∀ (ops : List (Nat × Option Str)) (seen : List Str) (img : ExtractedImage),
      img ∈ (scanImages decode page ops seen).map Prod.snd →
      50 ≤ img.width ∧ 50 ≤ img.height := by
  intro ops
  induction ops with
  | nil => intro seen img h; exact absurd h (by simp [scanImages])
  | cons op rest ih =>
    intro seen img h
    obtain ⟨fn, arg⟩ := op
    cases arg with
    | none =>
      simp only [scanImages] at h
      split at h <;> exact ih seen img h
    | some name =>
      simp only [scanImages] at h
      split at h
      · split at h
        · exact ih seen img h
        · cases htry : tryExtractImage decode page name with
          | none =>
            simp only [htry] at h
            exact ih (name :: seen) img h
          | some found =>
            simp only [htry, List.map_cons, List.mem_cons] at h
            cases h with
            | inl heq =>
              subst heq
              exact tryExtractImage_bounds decode page name _ htry
            | inr hmem => exact ih (name :: seen) img hmem
      · exact ih seen img h

/-- claim C4: every image in an extracted page is at least 50 pixels
wide and 50 pixels tall, and it is reported with its resolved width and
height. -/
theorem spec_C4 (decode : ImgData → Str) (page : PdfPage) (img : ExtractedImage)
    (h : img ∈ extractImagesFromPage decode page) :
    50 ≤ img.width ∧ 50 ≤ img.height := by
  unfold extractImagesFromPage extractImagesFromPageNamed at h
  cases hops : page.ops with
  | none => rw [hops] at h; exact absurd h (by simp)
  | some ops => rw [hops] at h; exact scanImages_mem_bounds decode page ops [] img h

/-- Witness for C4: on `pageWithImages` the 40x40 image is excluded,
and the 60x80 image is included and reported as 60x80 with the size
bound instantiated by `spec_C4`. -/
theorem spec_C4_witness :
    extractImagesFromPage pngDecode pageWithImages = [img60] ∧
    img60 ∈ extractImagesFromPage pngDecode pageWithImages ∧
    50 ≤ img60.width ∧ 50 ≤ img60.height := by
  refine ⟨by decide, by decide, ?_⟩
  exact spec_C4 pngDecode pageWithImages img60 (by decide)

theorem scanImages_names_fresh (decode : ImgData → Str) (page : PdfPage) :
    ∀ (ops : List (Nat × Option Str)) (seen : List Str),
      ((scanImages decode page ops seen).map Prod.fst).Nodup ∧
      ∀ n ∈ (scanImages decode page ops seen).map Prod.fst, n ∉ seen := by
  intro ops
  induction ops with
  | nil => intro seen; simp [scanImages]
  | cons op rest ih =>
    intro seen
    obtain ⟨fn, arg⟩ := op
    cases arg with
    | none =>
      simp only [scanImages]
      split <;> exact ih seen
    | some name =>
      simp only [scanImages]
      split
      · split
        · exact ih seen
        · rename_i hskip
          cases htry : tryExtractImage decode page name with
          | none =>
            simp only [htry]
            refine ⟨(ih (name :: seen)).1, ?_⟩
            intro n hn hseen
            exact (ih (name :: seen)).2 n hn (List.mem_cons_of_mem name hseen)
          | some found =>
            simp only [htry, List.map_cons, List.nodup_cons, List.mem_cons]
            refine ⟨⟨?_, (ih (name :: seen)).1⟩, ?_⟩
            · intro hmem
              exact (ih (name :: seen)).2 name hmem (List.mem_cons_self name seen)
            · intro n hn hseen
              cases hn with
              | inl heq =>
                subst heq
                exact hskip (Or.inr hseen)
              | inr hmem =>
                exact (ih (name :: seen)).2 n hmem (List.mem_cons_of_mem name hseen)
      · exact ih seen

/-- claim C6: the image-resource names encountered by the scan are
processed at most once per page — the names attached to a page's
extracted images are pairwise distinct, and the page's image list is
exactly the second components of that named list. -/
theorem spec_C6 (decode : ImgData → Str) (page : PdfPage) :
    ((extractImagesFromPageNamed decode page).map Prod.fst).Nodup ∧
    extractImagesFromPage decode page
      = (extractImagesFromPageNamed decode page).map Prod.snd := by
  refine ⟨?_, rfl⟩
  unfold extractImagesFromPageNamed
  cases page.ops with
  | none => simp
  | some ops => exact (scanImages_names_fresh decode page ops []).1

theorem collapseWsGo_chars :
    ∀ (s : Str) (b : Bool) (c : Char), c ∈ collapseWsGo b s →
      c = '-' ∨ (c ∈ s ∧ isWs c = false) := by
  intro s
  induction s with
  | nil => intro b c h; simp [collapseWsGo] at h
  | cons d rest ih =>
    intro b c h
    simp only [collapseWsGo] at h
    split at h
    · split at h
      · rcases ih true c h with h1 | ⟨h2, h3⟩
        · exact Or.inl h1
        · exact Or.inr ⟨List.mem_cons_of_mem d h2, h3⟩
      · rcases List.mem_cons.mp h with h1 | h1
        · exact Or.inl h1
        · rcases ih true c h1 with h2 | ⟨h3, h4⟩
          · exact Or.inl h2
          · exact Or.inr ⟨List.mem_cons_of_mem d h3, h4⟩
    · rename_i hdw
      rcases List.mem_cons.mp h with h1 | h1
      · rw [h1]
        exact Or.inr ⟨List.mem_cons_self d rest, by simpa using hdw⟩
      · rcases ih false c h1 with h2 | ⟨h3, h4⟩
        · exact Or.inl h2
        · exact Or.inr ⟨List.mem_cons_of_mem d h3, h4⟩

theorem mem_of_mem_trim (s : Str) (c : Char) (h : c ∈ trim s) : c ∈ s := by
  unfold trim trimL trimR at h
  have h1 : c ∈ (s.reverse.dropWhile isWs).reverse :=
    (List.dropWhile_sublist isWs).subset h
  have h2 : c ∈ s.reverse.dropWhile isWs := List.mem_reverse.mp h1
  have h3 : c ∈ s.reverse := (List.dropWhile_sublist isWs).subset h2
  exact List.mem_reverse.mp h3

/-- claim C7: every character of the computed output filename is a
letter, a digit, a hyphen or a dot — the slug pipeline (truncate,
strip, trim, collapse whitespace runs to hyphens, append the fixed
suffix) emits no disallowed character. -/
theorem spec_C7 (t : Option Str) (c : Char) (h : c ∈ safeFileName t) :
    c.isAlpha = true ∨ c.isDigit = true ∨ c = '-' ∨ c = '.' := by
  cases t with
  | none =>
    have hall : ∀ x ∈ (("critical-analysis.pdf").data : Str),
        x.isAlpha = true ∨ x.isDigit = true ∨ x = '-' ∨ x = '.' := by decide
    exact hall c h
  | some s =>
    unfold safeFileName collapseWs at h
    rcases List.mem_append.mp h with h1 | h2
    · rcases collapseWsGo_chars _ false c h1 with h3 | ⟨h4, h5⟩
      · exact Or.inr (Or.inr (Or.inl h3))
      · have h6 := mem_of_mem_trim _ c h4
        have h7 := (List.mem_filter.mp h6).2
        simp only [slugKeep, h5, Bool.or_false, Bool.or_eq_true, beq_iff_eq] at h7
        rcases h7 with (ha | hd) | hh
        · exact Or.inl ha
        · exact Or.inr (Or.inl hd)
        · exact Or.inr (Or.inr (Or.inl hh))
    · have hall : ∀ x ∈ slugSuffix,
          x.isAlpha = true ∨ x.isDigit = true ∨ x = '-' ∨ x = '.' := by decide
      exact hall c h2

/-- Witness for C7: the scenario title produces the expected slug and
its first character is covered by `spec_C7`. -/
theorem spec_C7_witness :
    safeFileName (some scenarioTitle)
      = ("A-Study-Effects-of-X-2024-critical-analysis.pdf").data ∧
    'A' ∈ safeFileName (some scenarioTitle) ∧
    ('A'.isAlpha = true ∨ 'A'.isDigit = true ∨ 'A' = '-' ∨ 'A' = '.') :=
  ⟨by decide, by decide, spec_C7 (some scenarioTitle) 'A' (by decide)⟩

/-- claim C10: placing missing or empty text is a no-op in both
renderers — `addText` returns the state unchanged (cursor, page count
and placement trace included) for `undefined`/`null` (`none`) and for
the empty string. -/
theorem spec_C10 (split : Str → Int → List Str) (stF : FinalReport.FState)
    (stP : Pairwise.PState) (size : Int) (color : Str) (bold : Bool) (indent : Int) :
    FinalReport.addText split stF none size color bold indent = stF ∧
    FinalReport.addText split stF (some []) size color bold indent = stF ∧
    Pairwise.addText split stP none size color bold indent = stP ∧
    Pairwise.addText split stP (some []) size color bold indent = stP :=
  ⟨rfl, rfl, rfl, rfl⟩

theorem fr_processLine_open (split : Str → Int → List Str) (st : FinalReport.FState)
    (line : Str) (hf : FinalReport.fenceStr.isPrefixOf line = true)
    (hc : st.inCode = false) :
    FinalReport.processLine split st line = { st with inCode := true } := by
  simp [FinalReport.processLine, hf, hc]

theorem fr_processLine_close (split : Str → Int → List Str) (st : FinalReport.FState)
    (line : Str) (hf : FinalReport.fenceStr.isPrefixOf line = true)
    (hc : st.inCode = true) :
    FinalReport.processLine split st line = FinalReport.emitCodeBlock st := by
  simp [FinalReport.processLine, hf, hc]

theorem fr_processLine_buffer (split : Str → Int → List Str) (st : FinalReport.FState)
    (line : Str) (hf : FinalReport.fenceStr.isPrefixOf line = false)
    (hc : st.inCode = true) :
    FinalReport.processLine split st line = { st with buf := st.buf ++ [line] } := by
  simp [FinalReport.processLine, hf, hc]

theorem fr_foldl_buffer (split : Str → Int → List Str) :
    ∀ (body : List Str) (st : FinalReport.FState), st.inCode = true →
      (∀ l ∈ body, FinalReport.fenceStr.isPrefixOf l = false) →
      List.foldl (FinalReport.processLine split) st body = { st with buf := st.buf ++ body } := by
  intro body
  induction body with
  | nil => intro st _ _; simp
  | cons l ls ih =>
    intro st hc hf
    rw [List.foldl_cons, fr_processLine_buffer split st l (hf l (by simp)) hc]
    rw [ih { st with buf := st.buf ++ [l] } hc (fun x hx => hf x (by simp [hx]))]
    simp

theorem fr_checkPageBreak_placed (r : Int) (st : FinalReport.FState) :
    (FinalReport.checkPageBreak r st).placed = st.placed := by
  unfold FinalReport.checkPageBreak
  split <;> rfl

theorem fr_placeCodeLines_txts :
    ∀ (ls : List Str) (st : FinalReport.FState),
      (FinalReport.placeCodeLines st ls).placed.map (·.txt)
        = st.placed.map (·.txt) ++ ls.map FinalReport.truncCode := by
  intro ls
  induction ls with
  | nil => intro st; simp [FinalReport.placeCodeLines]
  | cons l ls ih => intro st; simp [FinalReport.placeCodeLines, FinalReport.place, ih]

theorem fr_emitCodeBlock_spec (st : FinalReport.FState) (h : st.buf ≠ []) :
    (FinalReport.emitCodeBlock st).placed.map (·.txt)
      = st.placed.map (·.txt) ++ st.buf.map FinalReport.truncCode ∧
    (FinalReport.emitCodeBlock st).inCode = false ∧
    (FinalReport.emitCodeBlock st).buf = [] := by
  have hbe : st.buf.isEmpty = false := by simpa using h
  unfold FinalReport.emitCodeBlock
  rw [hbe]
  refine ⟨?_, by simp, by simp⟩
  simp [fr_placeCodeLines_txts, fr_checkPageBreak_placed]

/-- claim C5: from the normal state with an empty buffer, a fence line,
buffered body lines and a closing fence emit exactly one code block:
the rendered texts extend the trace by the body lines mapped through
the 90-character truncation (87 characters plus `"..."` when longer,
unchanged otherwise), and the loop returns to the normal state with the
buffer cleared. -/
theorem spec_C5 (split : Str → Int → List Str) (st : FinalReport.FState) (f1 f2 : Str)
    (body : List Str)
    (hf1 : FinalReport.fenceStr.isPrefixOf f1 = true)
    (hf2 : FinalReport.fenceStr.isPrefixOf f2 = true)
    (hbody : ∀ l ∈ body, FinalReport.fenceStr.isPrefixOf l = false)
    (hin : st.inCode = false) (hbuf : st.buf = []) (hne : body ≠ []) :
    ((List.foldl (FinalReport.processLine split) st (f1 :: (body ++ [f2]))).placed.map (·.txt)
      = st.placed.map (·.txt) ++ body.map FinalReport.truncCode) ∧
    FinalReport.truncCode
      = (fun l => if 90 < l.length then l.take 87 ++ ("...").data else l) ∧
    (List.foldl (FinalReport.processLine split) st (f1 :: (body ++ [f2]))).inCode = false ∧
    (List.foldl (FinalReport.processLine split) st (f1 :: (body ++ [f2]))).buf = [] := by
  rw [List.foldl_cons, fr_processLine_open split st f1 hf1 hin, List.foldl_append,
    fr_foldl_buffer split body _ rfl hbody, List.foldl_cons, List.foldl_nil,
    fr_processLine_close split _ f2 hf2 rfl]
  have hb : ({ st with inCode := true, buf := st.buf ++ body } : FinalReport.FState).buf ≠ [] := by
    simpa [hbuf] using hne
  obtain ⟨h1, h2, h3⟩ := fr_emitCodeBlock_spec _ hb
  refine ⟨?_, rfl, h2, h3⟩
  rw [h1]
  simp [hbuf]

/-- Witness for C5: a one-line code block between two fences renders
to exactly that (short, untruncated) line. -/
theorem spec_C5_witness :
    ((List.foldl (FinalReport.processLine wordSplit) FinalReport.initState
        ((("```").data) :: ([("c").data] ++ [("```").data]))).placed.map (·.txt)
      = FinalReport.initState.placed.map (·.txt) ++ [("c").data].map FinalReport.truncCode) ∧
    (List.foldl (FinalReport.processLine wordSplit) FinalReport.initState
        ((("```").data) :: ([("c").data] ++ [("```").data]))).inCode = false ∧
    (List.foldl (FinalReport.processLine wordSplit) FinalReport.initState
        ((("```").data) :: ([("c").data] ++ [("```").data]))).buf = [] := by
  have h := spec_C5 wordSplit FinalReport.initState (("```").data) (("```").data)
    [("c").data] (by decide) (by decide) (by decide) rfl rfl (by decide)
  exact ⟨h.1, h.2.2.1, h.2.2.2⟩

/-- claim C9: when the final fence is never closed, the lines after the
opening fence are only buffered and then dropped — the placement trace,
the cursor and the page count are all left exactly as they were before
the opening fence. -/
theorem spec_C9 (split : Str → Int → List Str) (st : FinalReport.FState) (f1 : Str)
    (body : List Str)
    (hf1 : FinalReport.fenceStr.isPrefixOf f1 = true)
    (hbody : ∀ l ∈ body, FinalReport.fenceStr.isPrefixOf l = false)
    (hin : st.inCode = false) :
    (List.foldl (FinalReport.processLine split) st (f1 :: body)).placed = st.placed ∧
    (List.foldl (FinalReport.processLine split) st (f1 :: body)).y = st.y ∧
    (List.foldl (FinalReport.processLine split) st (f1 :: body)).pages = st.pages := by
  rw [List.foldl_cons, fr_processLine_open split st f1 hf1 hin,
    fr_foldl_buffer split body _ rfl hbody]
  exact ⟨rfl, rfl, rfl⟩

/-- Witness for C9: an unclosed fence followed by two lines places
nothing and moves neither the cursor nor the page count. -/
theorem spec_C9_witness :
    (List.foldl (FinalReport.processLine wordSplit) FinalReport.initState
        ((("```").data) :: [("a").data, ("b").data])).placed
      = FinalReport.initState.placed ∧
    (List.foldl (FinalReport.processLine wordSplit) FinalReport.initState
        ((("```").data) :: [("a").data, ("b").data])).y = FinalReport.initState.y ∧
    (List.foldl (FinalReport.processLine wordSplit) FinalReport.initState
        ((("```").data) :: [("a").data, ("b").data])).pages = FinalReport.initState.pages :=
  spec_C9 wordSplit FinalReport.initState (("```").data) [("a").data, ("b").data]
    (by decide) (by decide) rfl

theorem pw_checkPageBreak_bound (r : Int) (st : Pairwise.PState)
    (hr : r ≤ pageH - 2 * pdfMargin) :
    (Pairwise.checkPageBreak r st).y + r ≤ pageH - pdfMargin := by
  unfold Pairwise.checkPageBreak
  split
  · simp only
    omega
  · rename_i hlt
    omega

theorem pw_checkPageBreak_placed (r : Int) (st : Pairwise.PState) :
    (Pairwise.checkPageBreak r st).placed = st.placed := by
  unfold Pairwise.checkPageBreak
  split <;> rfl

theorem pw_placeLines_bounded (h : Int) (hh : h ≤ pageH - 2 * pdfMargin) :
    ∀ (ls : List Str) (st : Pairwise.PState) (p : Placement),
      p ∈ (Pairwise.placeLines h st ls).placed →
      p ∈ st.placed ∨ p.y + p.h ≤ pageH - pdfMargin := by
  intro ls
  induction ls with
  | nil => intro st p hp; exact Or.inl hp
  | cons l ls ih =>
    intro st p hp
    simp only [Pairwise.placeLines] at hp
    rcases ih _ p hp with hmem | hbound
    · simp only [Pairwise.place] at hmem
      rcases List.mem_append.mp hmem with h1 | h2
      · exact Or.inl ((pw_checkPageBreak_placed h st) ▸ h1)
      · right
        rw [List.mem_singleton.mp h2]
        simpa using pw_checkPageBreak_bound h st hh
    · exact Or.inr hbound

/-- claim C2, amended: every line placed through the pairwise
renderer's `addText` (the page-break-checked path) has its bottom edge
at or above `pageHeight - margin`, provided one line (`fontSize * 1.4`)
fits the usable height of an empty page.  (The original claim over all
placements of a rendered document is false: the dimension-summary
continuation lines bypass the check, see the counterexample.) -/
theorem spec_C2 (split : Str → Int → List Str) (st : Pairwise.PState) (t : Option Str)
    (size : Int) (color : Str) (bold : Bool) (indent : Int)
    (hsize : size * 140 ≤ pageH - 2 * pdfMargin) :
    ∀ p ∈ (Pairwise.addText split st t size color bold indent).placed,
      p ∈ st.placed ∨ p.y + p.h ≤ pageH - pdfMargin := by
  intro p hp
  unfold Pairwise.addText at hp
  cases t with
  | none => exact Or.inl hp
  | some s =>
    cases s with
    | nil => exact Or.inl hp
    | cons c cs => exact pw_placeLines_bounded (size * 140) hsize _ st p hp

/-- Witness for C2 at a concrete placement: a 10 pt line placed by
`addText` from the initial cursor has its bottom edge within the page. -/
theorem spec_C2_witness :
    ((⟨("hi").data, 1, 4000, 1400⟩ : Placement) ∈
      (Pairwise.addText wordSplit { y := 4000, pages := 1, placed := [] }
        (some (("hi").data)) 10 Pairwise.colText false 0).placed) ∧
    ((⟨("hi").data, 1, 4000, 1400⟩ : Placement) ∈
        ({ y := 4000, pages := 1, placed := [] } : Pairwise.PState).placed ∨
      (⟨("hi").data, 1, 4000, 1400⟩ : Placement).y
          + (⟨("hi").data, 1, 4000, 1400⟩ : Placement).h ≤ pageH - pdfMargin) :=
  ⟨by decide,
   spec_C2 wordSplit { y := 4000, pages := 1, placed := [] } (some (("hi").data))
     10 Pairwise.colText false 0 (by decide) ⟨("hi").data, 1, 4000, 1400⟩ (by decide)⟩

set_option maxRecDepth 200000 in
/-- Counterexample to claim C2 as stated: rendering a single
comparison whose only dimension has a 120-word main summary places
lines whose bottom edge lies below `pageHeight - margin` — the
continuation-line loop of the dimension block runs no page-break
check. -/
theorem spec_C2_counterexample :
    ∃ p ∈ (Pairwise.exportPairwiseComparisonsToPdf wordSplit [cmpOverflow] none).body.placed,
      pageH - pdfMargin < p.y + p.h := by decide

set_option maxRecDepth 200000 in
/-- claim C8: the footer pass of both renderers runs after layout and
stamps page `i` of the final page count `n` with `Page i of n` (the
pairwise renderer appends its fixed suffix); the scenario document with
one paragraph long enough to wrap onto a second page yields exactly 2
pages with footers `Page 1 of 2` and `Page 2 of 2`. -/
theorem spec_C8 :
    (∀ (split : Str → Int → List Str) (md : Str) (t : Option Str),
      (FinalReport.exportFinalReportToPdf split md t).footers
        = (List.range (FinalReport.exportFinalReportToPdf split md t).body.pages).map
            (fun i => pageOfStr (i + 1)
              (FinalReport.exportFinalReportToPdf split md t).body.pages)) ∧
    (∀ (split : Str → Int → List Str) (cs : List Pairwise.PairwiseComparison)
        (t : Option Str),
      (Pairwise.exportPairwiseComparisonsToPdf split cs t).footers
        = (List.range (Pairwise.exportPairwiseComparisonsToPdf split cs t).body.pages).map
            (fun i => pageOfStr (i + 1)
                (Pairwise.exportPairwiseComparisonsToPdf split cs t).body.pages
              ++ (" • Generated by RUI").data)) ∧
    (FinalReport.exportFinalReportToPdf wordSplit scenarioMd none).body.pages = 2 ∧
    (FinalReport.exportFinalReportToPdf wordSplit scenarioMd none).footers
      = [("Page 1 of 2").data, ("Page 2 of 2").data] :=
  ⟨fun _ _ _ => rfl, fun _ _ _ => rfl, by decide, by decide⟩
